import Mathlib

/-!
# Verification of the Andromeda ad-creative pipeline

Shallow embedding of the core of the Andromeda-ADs repository:

* `src/services/geminiService.ts` — retry executor, format-resolution table,
  stage functions (context extraction, persona/angle/concept/copy synthesis,
  compliance check, visual style, image generation, carousel expansion);
* `src/unnamed/part_001` (the application component) — campaign graph store,
  creative-generation pipeline, promote / remix actions, performance simulation;
* `src/types.ts` — the data model.

The external generative-model client is a black box: each stage function takes
the outcome of its (already retried) network call as an explicit argument of
type `Except JsError ApiResponse`.  JavaScript's `JSON.parse` is likewise an
external runtime primitive: every upstream response text is modelled together
with its parse outcome (`JsText`), `none` meaning `JSON.parse` would throw.
JavaScript numbers are modelled as exact rationals (`ℚ`).
-/

namespace Andromeda

/-- A JavaScript value, as produced by `JSON.parse` casts and stored in the
dynamically-typed fields (`meta`, `adCopy`, parsed payloads) of the app.
`undefined` is JavaScript's `undefined` (e.g. a missing object property). -/
inductive JsVal where
  | undefined : JsVal
  | null : JsVal
  | bool (b : Bool) : JsVal
  | num (q : ℚ) : JsVal
  | str (s : String) : JsVal
  | arr (xs : List JsVal) : JsVal
  | obj (fs : List (String × JsVal)) : JsVal

mutual

/-- JavaScript string interpolation `${v}` of a value.  Integer numbers print
exactly; the textual form of a non-integer number is approximated (no claim
depends on it).  Arrays stringify element-wise joined by commas, objects as
`[object Object]`, as in JavaScript. -/
def JsVal.display : JsVal → String
  | .undefined => "undefined"
  | .null => "null"
  | .bool b => if b then "true" else "false"
  | .num q => if q.den = 1 then toString q.num else toString q.num ++ "/" ++ toString q.den
  | .str s => s
  | .arr xs => JsVal.displayList xs
  | .obj _ => "[object Object]"

/-- `Array.prototype.toString`: elements joined by commas. -/
def JsVal.displayList : List JsVal → String
  | [] => ""
  | [x] => x.display
  | x :: y :: xs => x.display ++ "," ++ JsVal.displayList (y :: xs)

end

/-- Property lookup `v.k` on a JavaScript value that is known to be neither
`null` nor `undefined` at the modelled call sites: a missing property, or any
property of a primitive, is `undefined`. -/
def JsVal.get : JsVal → String → JsVal
  | .obj fs, k => ((fs.find? (fun p => p.1 == k)).map Prod.snd).getD .undefined
  | _, _ => .undefined

/-- `v.k` followed by `String.prototype.slice`-style use: succeeds only when
the property exists and is a string; accessing a property of `null`/`undefined`
or calling `.slice` on a non-string throws (`.error`). -/
def JsVal.strField : JsVal → String → Except Unit String
  | .null, _ => .error ()
  | .undefined, _ => .error ()
  | .obj fs, k =>
    match (fs.find? (fun p => p.1 == k)).map Prod.snd with
    | some (.str s) => .ok s
    | _ => .error ()
  | _, _ => .error ()

/-- Object spread `{ ...o, k: v }`: replaces `k` in place when present,
appends it otherwise.  The spread of a non-object never occurs at the
modelled call sites (`meta` is always an object there). -/
def JsVal.setField : JsVal → String → JsVal → JsVal
  | .obj fs, k, v =>
    .obj (if fs.any (fun p => p.1 == k) then
            fs.map (fun p => if p.1 == k then (k, v) else p)
          else fs ++ [(k, v)])
  | _, k, v => .obj [(k, v)]

/-- Truthy string coercion `v || dflt` for values that are strings at the
modelled call sites (empty string, `null` and `undefined` are falsy). -/
def JsVal.strOr : JsVal → String → String
  | .str s, dflt => if s = "" then dflt else s
  | _, dflt => dflt

/-- Is `pat` a prefix of `l`? -/
def isPrefixChars : List Char → List Char → Bool
  | [], _ => true
  | _ :: _, [] => false
  | p :: ps, h :: hs => p == h && isPrefixChars ps hs

/-- Does `pat` occur as a contiguous run in `l`? -/
def containsChars (pat : List Char) : List Char → Bool
  | [] => pat.isEmpty
  | h :: hs => isPrefixChars pat (h :: hs) || containsChars pat hs

/-- `String.prototype.includes`: substring containment (`true` on the empty
pattern, as in JavaScript). -/
def strIncludes (hay pat : String) : Bool :=
  containsChars pat.data hay.data

/-- `String.prototype.trim`: strips leading and trailing whitespace. -/
def jsTrim (s : String) : String :=
  ⟨((s.data.dropWhile Char.isWhitespace).reverse.dropWhile Char.isWhitespace).reverse⟩

/-- `String.prototype.slice(0, 100)` (code points approximate the source's
UTF-16 units; no claim depends on the difference). -/
def jsSlice100 (s : String) : String :=
  ⟨s.data.take 100⟩

/-- `x || dflt` on optional strings (where `undefined` and `""` are falsy). -/
def strOrElse (x : Option String) (dflt : String) : String :=
  match x with
  | none => dflt
  | some s => if s = "" then dflt else s

/-- `${x}` interpolation of a possibly-`undefined` string. -/
def strDisplay (x : Option String) : String :=
  match x with
  | none => "undefined"
  | some s => s

/-- A thrown JavaScript error as inspected by the retry classifier:
optional `status`, `code` and `message` properties. -/
structure JsError where
  status : Option Nat := none
  code : Option Nat := none
  message : Option String := none
deriving Repr, DecidableEq

/-- `geminiService.ts`, `runWithRetry`: a failure is transient iff it carries
status or code 429, status 503, or a message containing `'429'`, `'503'` or
`'RESOURCE_EXHAUSTED'`. -/
def isTransient (e : JsError) : Bool :=
  e.status == some 429 ||
  e.code == some 429 ||
  e.status == some 503 ||
  (match e.message with
   | some m => strIncludes m "429" || strIncludes m "503" || strIncludes m "RESOURCE_EXHAUSTED"
   | none => false)

/-- The error thrown by the unreachable `throw new Error("Max retries
exceeded")` after `runWithRetry`'s loop. -/
def maxRetriesError : JsError :=
  { message := some "Max retries exceeded" }

/-- The loop of `runWithRetry` from attempt index `i`: the operation is a
function of the attempt index; the result is paired with the number of times
the operation was invoked.  On a transient failure before the last attempt the
code sleeps (`initialDelay * 2^i + jitter`) and retries — the delay does not
affect the result and is not modelled. -/
def runRetryFrom {α : Type} (op : Nat → Except JsError α) (retries : Nat) (i : Nat) :
    Except JsError α × Nat :=
  if _h : i < retries then
    match op i with
    | .ok a => (.ok a, 1)
    | .error e =>
      if isTransient e then
        if i = retries - 1 then (.error e, 1)
        else
          let r := runRetryFrom op retries (i + 1)
          (r.1, r.2 + 1)
      else (.error e, 1)
  else (.error maxRetriesError, 0)
termination_by retries - i

/-- `geminiService.ts`, `runWithRetry(operation, retries = 3, initialDelay = 1000)`:
returns the final outcome together with the number of attempts made. -/
def runWithRetry {α : Type} (op : Nat → Except JsError α) (retries : Nat := 3) :
    Except JsError α × Nat :=
  runRetryFrom op retries 0

/-- `src/types.ts`, `enum CreativeFormat` (all 38 values). -/
inductive CreativeFormat where
  | CAROUSEL_EDUCATIONAL | CAROUSEL_TESTIMONIAL | CAROUSEL_PANORAMA
  | CAROUSEL_PHOTO_DUMP | CAROUSEL_REAL_STORY
  | BIG_FONT | GMAIL_UX | BILLBOARD | UGLY_VISUAL | MS_PAINT | REDDIT_THREAD
  | MEME | LONG_TEXT | CARTOON | BEFORE_AFTER | WHITEBOARD
  | TWITTER_REPOST | PHONE_NOTES | AESTHETIC_MINIMAL | STORY_POLL | STORY_QNA
  | REELS_THUMBNAIL | DM_NOTIFICATION | UGC_MIRROR
  | US_VS_THEM | GRAPH_CHART | TIMELINE_JOURNEY
  | CHAT_CONVERSATION | REMINDER_NOTIF | SOCIAL_COMMENT_STACK | HANDHELD_TWEET
  | POV_HANDS | ANNOTATED_PRODUCT | SEARCH_BAR | BENEFIT_POINTERS
  | COLLAGE_SCRAPBOOK | CHECKLIST_TODO | STICKY_NOTE_REALISM
deriving Repr, DecidableEq

/-- The string value of each `CreativeFormat` enum member. -/
def formatText : CreativeFormat → String
  | .CAROUSEL_EDUCATIONAL => "Carousel: Educational / Tips"
  | .CAROUSEL_TESTIMONIAL => "Carousel: Testimonial Pile"
  | .CAROUSEL_PANORAMA => "Carousel: Seamless Panorama"
  | .CAROUSEL_PHOTO_DUMP => "Carousel: Photo Dump / Recap"
  | .CAROUSEL_REAL_STORY => "Carousel: Real People Story (UGC)"
  | .BIG_FONT => "Big Font / Text Heavy"
  | .GMAIL_UX => "Gmail / Letter Style"
  | .BILLBOARD => "Billboard Ad"
  | .UGLY_VISUAL => "Ugly Visual / Problem Focus"
  | .MS_PAINT => "MS Paint / Nostalgia"
  | .REDDIT_THREAD => "Reddit Thread"
  | .MEME => "Meme / Internet Culture"
  | .LONG_TEXT => "Long Text / Story"
  | .CARTOON => "Cartoon / Illustration"
  | .BEFORE_AFTER => "Before & After"
  | .WHITEBOARD => "Whiteboard / Diagram"
  | .TWITTER_REPOST => "Twitter/X Repost"
  | .PHONE_NOTES => "iPhone Notes App"
  | .AESTHETIC_MINIMAL => "Aesthetic / Text Overlay"
  | .STORY_POLL => "Story: Standard Poll (Yes/No)"
  | .STORY_QNA => "Story: Ask Me Anything (Influencer Style)"
  | .REELS_THUMBNAIL => "Reels Cover / Fake Video"
  | .DM_NOTIFICATION => "DM Notification"
  | .UGC_MIRROR => "UGC Mirror Selfie"
  | .US_VS_THEM => "Us vs Them / Comparison Table"
  | .GRAPH_CHART => "Graph / Data Visualization"
  | .TIMELINE_JOURNEY => "Timeline / Roadmap"
  | .CHAT_CONVERSATION => "Chat Bubble / WhatsApp"
  | .REMINDER_NOTIF => "Lockscreen Reminder"
  | .SOCIAL_COMMENT_STACK => "Social Comment Stack"
  | .HANDHELD_TWEET => "Handheld Tweet Overlay"
  | .POV_HANDS => "POV / Hands-on"
  | .ANNOTATED_PRODUCT => "Annotated / Feature Breakdown"
  | .SEARCH_BAR => "Search Bar UI"
  | .BENEFIT_POINTERS => "Benefit Pointers / Anatomy"
  | .COLLAGE_SCRAPBOOK => "Collage / Scrapbook"
  | .CHECKLIST_TODO => "Checklist / To-Do"
  | .STICKY_NOTE_REALISM => "Sticky Note / Handwritten"

/-- Bucket 1 of `getVisualEnhancers`: Instagram-native / app-UI screenshot
formats. -/
def uiScreenshotBucket : List CreativeFormat :=
  [.STORY_POLL, .STORY_QNA, .REELS_THUMBNAIL, .DM_NOTIFICATION, .TWITTER_REPOST,
   .PHONE_NOTES, .GMAIL_UX, .CHAT_CONVERSATION, .SOCIAL_COMMENT_STACK]

/-- Bucket 2 of `getVisualEnhancers`: lo-fi / raw / UGC realism formats. -/
def loFiBucket : List CreativeFormat :=
  [.UGLY_VISUAL, .REDDIT_THREAD, .POV_HANDS, .UGC_MIRROR, .US_VS_THEM,
   .HANDHELD_TWEET, .STICKY_NOTE_REALISM, .CAROUSEL_REAL_STORY]

/-- Bucket 3 of `getVisualEnhancers`: meme / doodle formats. -/
def memeBucket : List CreativeFormat := [.MEME, .MS_PAINT]

/-- Bucket 4 of `getVisualEnhancers`: flat-vector / minimal-UI formats. -/
def vectorBucket : List CreativeFormat :=
  [.CAROUSEL_EDUCATIONAL, .GRAPH_CHART, .CARTOON, .WHITEBOARD,
   .TIMELINE_JOURNEY, .CHECKLIST_TODO, .SEARCH_BAR, .REMINDER_NOTIF]

/-- The fixed suffix of the default (high-end) branch of
`getVisualEnhancers`. -/
def highEndSuffix : String := ", quality:8k/masterpiece/sharp-focus"

/-- `geminiService.ts`, `getVisualEnhancers(style, format)`: the format
"chassis" table.  Five fixed buckets, then the default branch appends the
high-end suffix to the caller's active style hint. -/
def getVisualEnhancers (style : String) (format : CreativeFormat) : String :=
  if uiScreenshotBucket.contains format then
    "style:mobile-app-screenshot, quality:high-fidelity-ui, texture:screen-pixel, vibe:authentic-social-media, perspective:flat-2d-screen-capture"
  else if loFiBucket.contains format then
    "texture:grainy/noise, lighting:natural-window/harsh-flash, quality:amateur/raw/authentic, device:smartphone-camera-iphone, focus:sharp-subject-blurry-background"
  else if memeBucket.contains format then
    "style:ms-paint/doodle, quality:low-res/pixelated, vibe:internet-humor"
  else if vectorBucket.contains format then
    "style:flat-vector/minimal-ui, shading:none, depth:2d, color:solid-hex-codes"
  else if format == .BENEFIT_POINTERS then
    "style:high-end-product-photography, lighting:studio-softbox, quality:8k, overlay:clean-white-graphics"
  else
    style ++ highEndSuffix

/-! ## Upstream responses and stage results -/

/-- A response text together with the outcome of the external primitive
`JSON.parse` on it (`none` when parsing would throw). -/
structure JsText where
  raw : String
  parsed : Option JsVal

/-- `part.inlineData` of a generate-content response part. -/
structure InlineData where
  mimeType : Option String := none
  data : Option String := none

/-- A response part (`candidates[0].content.parts[i]`). -/
structure Part where
  inlineData : Option InlineData := none

/-- A successful generate-content response, as read by the stage functions:
optional text, optional usage counts, and the candidate content parts
(empty when absent). -/
structure ApiResponse where
  text? : Option JsText := none
  promptTokenCount : Option ℚ := none
  candidatesTokenCount : Option ℚ := none
  parts : List Part := []

/-- `src/types.ts`, `GenResult<T>`. -/
structure GenResult (α : Type) where
  data : α
  inputTokens : ℚ
  outputTokens : ℚ

/-- `JSON.parse(response.text || dflt)`: a missing text parses the literal
default (`"[]"` or `"{}"`); otherwise the text's own parse outcome is used,
`.error` meaning `JSON.parse` threw. -/
def parseTextOr (t : Option JsText) (dflt : JsVal) : Except Unit JsVal :=
  match t with
  | none => .ok dflt
  | some jt =>
    match jt.parsed with
    | some j => .ok j
    | none => .error ()

/-- `response.usageMetadata?.promptTokenCount || 0` (and the analogous
candidate count). -/
def usageOr0 (x : Option ℚ) : ℚ := x.getD 0

/-! ## Project context and enums -/

/-- `src/types.ts`, `enum FunnelStage`. -/
inductive FunnelStage where
  | TOF | MOF | BOF
deriving Repr, DecidableEq

/-- `src/types.ts`, `enum MarketAwareness`. -/
inductive MarketAwareness where
  | UNAWARE | PROBLEM_AWARE | SOLUTION_AWARE | PRODUCT_AWARE | MOST_AWARE
deriving Repr, DecidableEq

/-- `src/types.ts`, `enum CopyFramework`. -/
inductive CopyFramework where
  | PAS | AIDA | BAB | FAB | STORY
deriving Repr, DecidableEq

/-- `src/types.ts`, `ProjectContext`. -/
structure ProjectContext where
  productName : String
  productDescription : String
  targetAudience : String
  landingPageUrl : Option String := none
  productReferenceImage : Option String := none
  targetCountry : Option String := none
  brandVoice : Option String := none
  funnelStage : Option FunnelStage := none
  offer : Option String := none
  marketAwareness : Option MarketAwareness := none
  copyFramework : Option CopyFramework := none

/-- `src/types.ts`, `AdCopy`. -/
structure AdCopy where
  primaryText : String
  headline : String
  cta : String
  complianceNotes : Option String := none

/-! ## Stage functions (`geminiService.ts`)

Every stage function receives the outcome of its (already retried) call to
the generative model as an `Except JsError ApiResponse`.  Prompt assembly is
modelled only where the prompt text flows into a claimed output (carousel
slide prompts); elsewhere the prompt shapes only the outbound request. -/

/-- The error thrown (and so propagated to the caller) by
`analyzeLandingPageContext`'s own catch block. -/
def analysisFailedError : JsError :=
  { message := some "Could not analyze landing page content." }

/-- `analyzeLandingPageContext(markdown)`: on success returns the parsed JSON
cast to `ProjectContext` (no shape validation); any failure — including a
`JSON.parse` throw — is caught and re-thrown as a fresh descriptive error.
(`analyzeImageContext` has the same error behaviour.) -/
def analyzeLandingPageContext (response : Except JsError ApiResponse) :
    Except JsError JsVal :=
  match response with
  | .error _ => .error analysisFailedError
  | .ok r =>
    match parseTextOr r.text? (.obj []) with
    | .ok j => .ok j
    | .error _ => .error analysisFailedError

/-- The fallback payload of `generatePersonas` ("Fallback if AI fails
completely"). -/
def personasFallback : GenResult JsVal :=
  { data := .arr [.obj
      [("name", .str "The Ideal Customer"),
       ("profile", .str "Matches target audience perfectly."),
       ("motivation", .str "To solve their problem"),
       ("deepFear", .str "Failure"),
       ("secretDesire", .str "Success")]],
    inputTokens := 0, outputTokens := 0 }

/-- `generatePersonas(project)`: parses `response.text || "[]"` (no shape
validation); any throw in the try block yields the fixed fallback persona. -/
def generatePersonas (_project : ProjectContext)
    (response : Except JsError ApiResponse) : GenResult JsVal :=
  match response with
  | .error _ => personasFallback
  | .ok r =>
    match parseTextOr r.text? (.arr []) with
    | .ok j =>
      { data := j,
        inputTokens := usageOr0 r.promptTokenCount,
        outputTokens := usageOr0 r.candidatesTokenCount }
    | .error _ => personasFallback

/-- The fallback payload of `generateAngles`. -/
def anglesFallback (project : ProjectContext) : GenResult JsVal :=
  { data := .arr [.obj
      [("headline", .str ("Discover " ++ project.productName)),
       ("painPoint", .str "General need")]],
    inputTokens := 0, outputTokens := 0 }

/-- `generateAngles(project, personaName, motivation)`: parses
`response.text || "[]"`; any throw yields the "Discover <product>"
fallback hook. -/
def generateAngles (project : ProjectContext) (_personaName _motivation : String)
    (response : Except JsError ApiResponse) : GenResult JsVal :=
  match response with
  | .error _ => anglesFallback project
  | .ok r =>
    match parseTextOr r.text? (.arr []) with
    | .ok j =>
      { data := j,
        inputTokens := usageOr0 r.promptTokenCount,
        outputTokens := usageOr0 r.candidatesTokenCount }
    | .error _ => anglesFallback project

/-- The fallback payload of `generateCreativeConcept`. -/
def conceptFallback (project : ProjectContext) (angle : String) : GenResult JsVal :=
  { data := .obj
      [("visualScene", .str ("Shot of " ++ project.productName)),
       ("visualStyle", .str "Studio lighting"),
       ("technicalPrompt", .str "high quality"),
       ("copyAngle", .str angle),
       ("rationale", .str "Default")],
    inputTokens := 0, outputTokens := 0 }

/-- `generateCreativeConcept(project, personaName, angle, format)`: parses
`response.text || "{}"`; any throw yields the default concept. -/
def generateCreativeConcept (project : ProjectContext) (_personaName : String)
    (angle : String) (_format : CreativeFormat)
    (response : Except JsError ApiResponse) : GenResult JsVal :=
  match response with
  | .error _ => conceptFallback project angle
  | .ok r =>
    match parseTextOr r.text? (.obj []) with
    | .ok j =>
      { data := j,
        inputTokens := usageOr0 r.promptTokenCount,
        outputTokens := usageOr0 r.candidatesTokenCount }
    | .error _ => conceptFallback project angle

/-- The model's verdict text as read by `checkAdCompliance`:
`response.text?.trim() || "COMPLIANT"`. -/
def complianceVerdict (r : ApiResponse) : String :=
  match r.text? with
  | none => "COMPLIANT"
  | some t => if jsTrim t.raw = "" then "COMPLIANT" else jsTrim t.raw

/-- `checkAdCompliance(copy)`: the model's verdict text is mapped to the safe
marker `"Safe"` whenever it contains the substring `"COMPLIANT"`, and
returned verbatim otherwise; an upstream error yields `"Check Failed"`. -/
def checkAdCompliance (_copy : AdCopy) (response : Except JsError ApiResponse) :
    String :=
  match response with
  | .error _ => "Check Failed"
  | .ok r =>
    let result := complianceVerdict r
    if strIncludes result "COMPLIANT" then "Safe" else result

/-- The fallback payload of `generateAdCopy`: its headline is
`concept.copyAngle` (which is `undefined` when the call site passed a plain
angle string as the concept). -/
def adCopyFallback (concept : JsVal) : GenResult JsVal :=
  { data := .obj
      [("primaryText", .str "Check out this product."),
       ("headline", concept.get "copyAngle"),
       ("cta", .str "Shop Now")],
    inputTokens := 0, outputTokens := 0 }

/-- `generateAdCopy(project, personaName, concept)`: parses
`response.text || "{}"` (no shape validation); any throw yields the fixed
fallback copy. -/
def generateAdCopy (_project : ProjectContext) (_personaName : String)
    (concept : JsVal) (response : Except JsError ApiResponse) : GenResult JsVal :=
  match response with
  | .error _ => adCopyFallback concept
  | .ok r =>
    match parseTextOr r.text? (.obj []) with
    | .ok j =>
      { data := j,
        inputTokens := usageOr0 r.promptTokenCount,
        outputTokens := usageOr0 r.candidatesTokenCount }
    | .error _ => adCopyFallback concept

/-- `generateVisualStyle(project, personaName, angle)`: returns the raw
response text (or a fixed default when it is missing/empty); an upstream
error yields the fixed fallback style. -/
def generateVisualStyle (_project : ProjectContext) (_personaName _angle : String)
    (response : Except JsError ApiResponse) : GenResult String :=
  match response with
  | .error _ => { data := "Professional studio lighting.", inputTokens := 0, outputTokens := 0 }
  | .ok r =>
    { data := strOrElse (r.text?.map JsText.raw) "Studio lighting, clean background.",
      inputTokens := usageOr0 r.promptTokenCount,
      outputTokens := usageOr0 r.candidatesTokenCount }

/-- The `for (const part of ...)` loop of `callImageGen`: the data URL built
from the last part carrying non-empty inline data, if any. -/
def extractImageUrl (parts : List Part) : Option String :=
  parts.foldl
    (fun url p =>
      match p.inlineData with
      | some d =>
        match d.data with
        | some bytes =>
          if bytes = "" then url
          else some ("data:" ++ strDisplay d.mimeType ++ ";base64," ++ bytes)
        | none => url
      | none => url)
    none

/-- `callImageGen(prompt, aspectRatio, referenceImage?)`: called through
`runWithRetry(…, 2, 2000)`; its own catch converts every failure into a
`null` image with zero usage, so it never throws. -/
def callImageGen (response : Except JsError ApiResponse) : GenResult (Option String) :=
  match response with
  | .error _ => { data := none, inputTokens := 0, outputTokens := 0 }
  | .ok r =>
    { data := extractImageUrl r.parts,
      inputTokens := usageOr0 r.promptTokenCount,
      outputTokens := usageOr0 r.candidatesTokenCount }

/-- `generateCreativeImage(project, personaName, angleHeadline, format,
visualScene, visualStyle, technicalPrompt, aspectRatio)`: the format switch,
`getVisualEnhancers` and `constructImagePrompt` assemble only the outbound
prompt; the returned `GenResult` is exactly `callImageGen`'s. -/
def generateCreativeImage (response : Except JsError ApiResponse) :
    GenResult (Option String) :=
  callImageGen response

/-! ## Carousel expansion -/

/-- `constructImagePrompt(subject, context, medium, scene, visualStyle,
technicalTags, hasReferenceImage, targetCountry)` (the token-efficient prompt
builder). -/
def constructImagePrompt (subject context medium scene visualStyle technicalTags : String)
    (hasReferenceImage : Bool) (targetCountry : String) : String :=
  let base :=
    "\n    CMD: Generate Image.\n    SUBJECT: " ++ subject ++
    "\n    CONTEXT: " ++ context ++
    "\n    MEDIUM: " ++ medium ++ " (Influenced by: " ++ visualStyle ++ ")" ++
    "\n    SCENE: " ++ scene ++
    "\n    VISUAL STYLE: " ++ visualStyle ++
    "\n    TECH SPECS: " ++ technicalTags ++
    "\n    RULES: Authentic look. If UI is requested, ensure icons and text layouts look native (like a screenshot).\n    "
  let base := if targetCountry ≠ "" then
      base ++ " DEMOGRAPHIC: Models/People MUST appear to be native to " ++ targetCountry ++ " (Ethnicity/Clothing/Environment)."
    else base
  if hasReferenceImage then
    base ++ " INSTRUCTION: Use the provided product image as the visual reference for the SUBJECT. Integrate it naturally into the scene."
  else base

/-- The fixed fallback of the educational branch: four generic labeled
slides. -/
def educationalFallbackPrompts : List String :=
  ["Hook", "Problem", "Solution", "Outcome"].map
    (fun t => "CMD: Gen Slide. TEXT: " ++ t ++ ". STYLE: Flat Vector.")

/-- The slide-prompt plan of `generateCarouselSlides`: the prompts to be
dispatched and the token usage charged by the slide-text call. -/
structure SlidePlan where
  prompts : List String
  inputTokens : ℚ
  outputTokens : ℚ

/-- The slide-text phase of `generateCarouselSlides` (everything before the
image fan-out).  In each branch, the token counters are incremented only
after a successful `JSON.parse`; mapping over a parsed non-array value throws
(after the increments) and falls back, as in the source. -/
def carouselSlidePlan (textResponse : Except JsError ApiResponse)
    (project : ProjectContext) (format : CreativeFormat)
    (_angleHeadline : String) (visualScene visualStyle technicalPrompt : Option String) :
    SlidePlan :=
  if format == .CAROUSEL_EDUCATIONAL then
    match textResponse with
    | .error _ => { prompts := educationalFallbackPrompts, inputTokens := 0, outputTokens := 0 }
    | .ok r =>
      match parseTextOr r.text? (.arr []) with
      | .error _ => { prompts := educationalFallbackPrompts, inputTokens := 0, outputTokens := 0 }
      | .ok j =>
        let tIn := usageOr0 r.promptTokenCount
        let tOut := usageOr0 r.candidatesTokenCount
        let enhancers := getVisualEnhancers "flat" format
        match j with
        | .arr texts =>
          { prompts := texts.map (fun t =>
              "CMD: Gen Flat Vector Slide. CENTER TEXT: \"" ++ t.display ++
              "\". STYLE: Minimal geometric. SPECS: " ++ enhancers ++ ", " ++
              strDisplay technicalPrompt),
            inputTokens := tIn, outputTokens := tOut }
        | _ =>
          -- `texts.map` throws on a non-array value; the counters were
          -- already incremented.
          { prompts := educationalFallbackPrompts, inputTokens := tIn, outputTokens := tOut }
    else
    let visualFallback : List String :=
      [1, 2, 3, 4].map (fun _ =>
        "CMD: Gen Photo. SUBJECT: " ++ project.productName ++ ". STYLE: " ++
        strDisplay visualScene)
    match textResponse with
    | .error _ => { prompts := visualFallback, inputTokens := 0, outputTokens := 0 }
    | .ok r =>
      match parseTextOr r.text? (.arr []) with
      | .error _ => { prompts := visualFallback, inputTokens := 0, outputTokens := 0 }
      | .ok j =>
        let tIn := usageOr0 r.promptTokenCount
        let tOut := usageOr0 r.candidatesTokenCount
        let enhancers := getVisualEnhancers "candid" format
        let combinedTechnical := enhancers ++ ", " ++ strDisplay technicalPrompt
        match j with
        | .arr visuals =>
          { prompts := visuals.map (fun v =>
              constructImagePrompt project.productName "" "Photography" v.display
                (strOrElse visualStyle "Authentic") combinedTechnical
                project.productReferenceImage.isSome
                (project.targetCountry.getD "")),
            inputTokens := tIn, outputTokens := tOut }
        | _ =>
          { prompts := visualFallback, inputTokens := tIn, outputTokens := tOut }

/-- `generateCarouselSlides(project, format, angleHeadline, visualScene,
visualStyle, technicalPrompt)`: builds the slide-prompt plan, dispatches one
`callImageGen` request per prompt (concurrently; `imageResponse i` is the
outcome of the `i`-th request), and collects the successful images and the
accumulated usage. -/
def generateCarouselSlides (textResponse : Except JsError ApiResponse)
    (imageResponse : Nat → Except JsError ApiResponse)
    (project : ProjectContext) (format : CreativeFormat)
    (angleHeadline : String) (visualScene visualStyle technicalPrompt : Option String) :
    GenResult (List String) :=
  let plan := carouselSlidePlan textResponse project format angleHeadline
      visualScene visualStyle technicalPrompt
  let results := (List.range plan.prompts.length).map (fun i => callImageGen (imageResponse i))
  { data := results.filterMap GenResult.data,
    inputTokens := plan.inputTokens + (results.map GenResult.inputTokens).sum,
    outputTokens := plan.outputTokens + (results.map GenResult.outputTokens).sum }

/-! ## Campaign graph store (`src/unnamed/part_001`) -/

/-- `src/types.ts`, `enum NodeType`. -/
inductive NodeType where
  | ROOT | PERSONA | ANGLE | CREATIVE
deriving Repr, DecidableEq

/-- `src/types.ts`, `enum CampaignStage`. -/
inductive CampaignStage where
  | TESTING | SCALING
deriving Repr, DecidableEq

/-- `src/types.ts`, `Metrics`. -/
structure Metrics where
  spend : ℚ
  cpa : ℚ
  roas : ℚ
  impressions : ℚ
  ctr : ℚ

/-- `src/types.ts`, `NodeData`.  Optional fields are `Option`; `meta` and
`adCopy` hold dynamically-typed values produced by `JSON.parse` casts. -/
structure NodeData where
  id : String
  type : NodeType
  parentId : Option String := none
  title : String
  description : Option String := none
  meta : Option JsVal := none
  imageUrl : Option String := none
  carouselImages : Option (List String) := none
  format : Option CreativeFormat := none
  adCopy : Option JsVal := none
  audioScript : Option String := none
  audioBase64 : Option String := none
  isLoading : Option Bool := none
  stage : Option CampaignStage := none
  isGhost : Option Bool := none
  metrics : Option Metrics := none
  postId : Option String := none
  isWinning : Option Bool := none
  isLosing : Option Bool := none
  aiInsight : Option String := none
  inputTokens : Option ℚ := none
  outputTokens : Option ℚ := none
  estimatedCost : Option ℚ := none
  x : ℚ
  y : ℚ

/-- `src/types.ts`, `Edge`. -/
structure Edge where
  id : String
  source : String
  target : String

/-- The in-memory node/edge store (`nodes` and `edges` React state). -/
structure Store where
  nodes : List NodeData
  edges : List Edge

/-- `addNode(node)`: appends. -/
def Store.addNode (s : Store) (n : NodeData) : Store :=
  { s with nodes := s.nodes ++ [n] }

/-- `addEdge(source, target)`: appends an edge with id `source-target`. -/
def Store.addEdge (s : Store) (source target : String) : Store :=
  { s with edges := s.edges ++ [{ id := source ++ "-" ++ target, source := source, target := target }] }

/-- `updateNode(id, updates)`: maps the update over every node whose id
matches. -/
def Store.updateNode (s : Store) (i : String) (f : NodeData → NodeData) : Store :=
  { s with nodes := s.nodes.map (fun n => if n.id == i then f n else n) }

/-! ### Promote (`handleNodeAction`, `'promote_creative'`) -/

/-- The vault copy created by promotion: a value-copy of the original with id
`vault-<id>`, stage `SCALING`, the fixed scaling description, a random
post id, reset layout, `isWinning` and the fixed simulated metrics. -/
def vaultNodeOf (original : NodeData) (rand : ℚ) : NodeData :=
  { original with
      id := "vault-" ++ original.id,
      stage := some .SCALING,
      description := some "Active in Advantage+ Scaling Campaign",
      postId := some ("PID-" ++ toString (Rat.floor (rand * 1000000))),
      x := 0, y := 0,
      isWinning := some true,
      metrics := some { spend := 850, cpa := 12.5, roas := 3.2, impressions := 45000, ctr := 1.8 } }

/-- `'promote_creative'`: ghosts the original in place (keeping it in the
testing stage) and appends the vault copy built from the pre-update original.
`rand` is the `Math.random()` draw for the post id. -/
def promoteCreative (s : Store) (nodeId : String) (rand : ℚ) : Store :=
  match s.nodes.find? (fun n => n.id == nodeId) with
  | none => s
  | some original =>
    let s1 := s.updateNode nodeId (fun n => { n with isGhost := some true, stage := some .TESTING })
    s1.addNode (vaultNodeOf original rand)

/-! ### Creative generation (`executeGeneration`) -/

/-- The `isCarousel` test of `executeGeneration` (note:
`CAROUSEL_REAL_STORY` is not included there). -/
def isCarouselFormat (f : CreativeFormat) : Bool :=
  f == .CAROUSEL_EDUCATIONAL || f == .CAROUSEL_TESTIMONIAL ||
  f == .CAROUSEL_PANORAMA || f == .CAROUSEL_PHOTO_DUMP

/-- The upstream outcomes consumed by one creative node's generation:
visual-style call (carousel formats only), ad-copy call, main image call,
and the carousel slide-text and slide-image calls. -/
structure CreativeOracle where
  styleResponse : Except JsError ApiResponse
  copyResponse : Except JsError ApiResponse
  imageResponse : Except JsError ApiResponse
  slideTextResponse : Except JsError ApiResponse
  slideImageResponse : Nat → Except JsError ApiResponse

/-- The per-node cost formula of `executeGeneration` and the remix loop
(Gemini 2.5 Flash pricing):
`inputTokens/1e6 * 0.30 + outputTokens/1e6 * 2.50 + imageCount * 0.039`. -/
def nodeCost (accIn accOut imageCount : ℚ) : ℚ :=
  accIn / 1000000 * 0.30 + accOut / 1000000 * 2.50 + imageCount * 0.039

/-- Input tokens accumulated by one creative node's generation. -/
def creativeAccIn (o : CreativeOracle) (project : ProjectContext)
    (personaName angle : String) (fmt : CreativeFormat) : ℚ :=
  let styleRes := generateVisualStyle project personaName angle o.styleResponse
  let visualStyle := if isCarouselFormat fmt then styleRes.data else ""
  (if isCarouselFormat fmt then styleRes.inputTokens else 0) +
  (generateAdCopy project personaName (.str angle) o.copyResponse).inputTokens +
  (generateCreativeImage o.imageResponse).inputTokens +
  (if isCarouselFormat fmt then
     (generateCarouselSlides o.slideTextResponse o.slideImageResponse project fmt
        angle (some visualStyle) none none).inputTokens
   else 0)

/-- Output tokens accumulated by one creative node's generation. -/
def creativeAccOut (o : CreativeOracle) (project : ProjectContext)
    (personaName angle : String) (fmt : CreativeFormat) : ℚ :=
  let styleRes := generateVisualStyle project personaName angle o.styleResponse
  let visualStyle := if isCarouselFormat fmt then styleRes.data else ""
  (if isCarouselFormat fmt then styleRes.outputTokens else 0) +
  (generateAdCopy project personaName (.str angle) o.copyResponse).outputTokens +
  (generateCreativeImage o.imageResponse).outputTokens +
  (if isCarouselFormat fmt then
     (generateCarouselSlides o.slideTextResponse o.slideImageResponse project fmt
        angle (some visualStyle) none none).outputTokens
   else 0)

/-- Images accumulated by one creative node's generation: one when the main
image succeeded, plus every generated carousel slide. -/
def creativeImageCount (o : CreativeOracle) (project : ProjectContext)
    (personaName angle : String) (fmt : CreativeFormat) : ℚ :=
  let styleRes := generateVisualStyle project personaName angle o.styleResponse
  let visualStyle := if isCarouselFormat fmt then styleRes.data else ""
  (if (generateCreativeImage o.imageResponse).data.isSome then 1 else 0) +
  (if isCarouselFormat fmt then
     ((generateCarouselSlides o.slideTextResponse o.slideImageResponse project fmt
        angle (some visualStyle) none none).data.length : ℚ)
   else 0)

/-- The body of `executeGeneration`'s per-node try block (source lines
279–357 of the app component), applied to the node as it is finally updated.
For carousel formats the style stage runs first; copy and image always run
(the call sites pass the plain angle string as the copy "concept" and supply
the carousel call with only four arguments, leaving `visualStyle` and
`technicalPrompt` undefined there).  Building the success update reads
`adCopy.primaryText.slice(0, 100)`, which throws when the parsed copy payload
has no string `primaryText`; the catch then applies the failure update. -/
def runCreativePipeline (o : CreativeOracle) (project : ProjectContext)
    (personaName angle : String) (fmt : CreativeFormat) (node : NodeData) : NodeData :=
  let styleRes := generateVisualStyle project personaName angle o.styleResponse
  let visualStyle := if isCarouselFormat fmt then styleRes.data else ""
  let copyRes := generateAdCopy project personaName (.str angle) o.copyResponse
  let imgRes := generateCreativeImage o.imageResponse
  let slides : List String :=
    if isCarouselFormat fmt then
      (generateCarouselSlides o.slideTextResponse o.slideImageResponse project fmt
        angle (some visualStyle) none none).data
    else []
  let accIn := creativeAccIn o project personaName angle fmt
  let accOut := creativeAccOut o project personaName angle fmt
  let imageCount := creativeImageCount o project personaName angle fmt
  match copyRes.data.strField "primaryText" with
  | .ok primary =>
    { node with
        isLoading := some false,
        description := some (jsSlice100 primary ++ "..."),
        imageUrl := imgRes.data,
        carouselImages := if slides.length > 0 then some slides else none,
        adCopy := some copyRes.data,
        inputTokens := some accIn,
        outputTokens := some accOut,
        estimatedCost := some (nodeCost accIn accOut imageCount),
        meta := some ((node.meta.getD (.obj [])).setField "styleContext" (.str visualStyle)) }
  | .error _ =>
    { node with isLoading := some false, description := some "Generation Failed" }

/-! ### Remix (`handleNodeAction`, `'remix_creative'`) -/

/-- The remix variation kinds. -/
inductive RemixType where
  | COPY | VISUAL | FORMAT
deriving Repr, DecidableEq

/-- One remix variation (id suffix, label, kind, target format). -/
structure RemixVariation where
  idSuffix : String
  label : String
  rtype : RemixType
  vformat : Option CreativeFormat

/-- The fixed pivot candidates of the remix action. -/
def pivotOptions : List CreativeFormat :=
  [.UGLY_VISUAL, .TWITTER_REPOST, .AESTHETIC_MINIMAL, .POV_HANDS]

/-- `pivotOptions.find(f => f !== currentFormat) || AESTHETIC_MINIMAL`. -/
def pivotFormatFor (currentFormat : Option CreativeFormat) : CreativeFormat :=
  (pivotOptions.find? (fun f => some f != currentFormat)).getD .AESTHETIC_MINIMAL

/-- The skeleton node created for remix variation `v` at position `i`. -/
def remixSkeleton (src : NodeData) (personaName angle currentStyle : String)
    (i : Nat) (v : RemixVariation) : NodeData :=
  { id := "remix-" ++ src.id ++ "-" ++ v.idSuffix,
    type := .CREATIVE,
    parentId := some src.id,
    title := (v.vformat.map formatText).getD "undefined",
    description := some ("Remixing: " ++ v.label ++ "..."),
    format := v.vformat,
    x := src.x + 400,
    y := src.y + ((i : ℚ) - 1) * 400,
    stage := some .TESTING,
    isLoading := some true,
    meta := some (.obj
      [("personaName", .str personaName), ("angle", .str angle),
       ("styleContext", .str currentStyle)]) }

/-- The upstream outcomes consumed by one remix variation's processing. -/
structure RemixOracle where
  styleResponse : Except JsError ApiResponse
  copyResponse : Except JsError ApiResponse
  imageResponse : Except JsError ApiResponse

/-- `adCopy?.primaryText.slice(0, 100)`: throws when the copy record is
absent or its `primaryText` is not a string. -/
def optPrimaryText : Option JsVal → Except Unit String
  | none => .error ()
  | some c => c.strField "primaryText"

/-- The copy record attached by one remix variation: freshly generated for
`COPY` (or when the source carries none), the source's otherwise. -/
def remixAdCopyOf (o : RemixOracle) (project : ProjectContext)
    (personaName angle : String) (srcAdCopy : Option JsVal) (rtype : RemixType) :
    Option JsVal :=
  if rtype == .COPY || srcAdCopy.isNone then
    some (generateAdCopy project personaName (.str angle) o.copyResponse).data
  else srcAdCopy

/-- Input tokens accumulated by one remix variation. -/
def remixAccIn (o : RemixOracle) (project : ProjectContext)
    (personaName angle : String) (srcAdCopy : Option JsVal) (rtype : RemixType) : ℚ :=
  (if rtype == .VISUAL then
     (generateVisualStyle project personaName angle o.styleResponse).inputTokens
   else 0) +
  (if rtype == .COPY || srcAdCopy.isNone then
     (generateAdCopy project personaName (.str angle) o.copyResponse).inputTokens
   else 0) +
  (generateCreativeImage o.imageResponse).inputTokens

/-- Output tokens accumulated by one remix variation. -/
def remixAccOut (o : RemixOracle) (project : ProjectContext)
    (personaName angle : String) (srcAdCopy : Option JsVal) (rtype : RemixType) : ℚ :=
  (if rtype == .VISUAL then
     (generateVisualStyle project personaName angle o.styleResponse).outputTokens
   else 0) +
  (if rtype == .COPY || srcAdCopy.isNone then
     (generateAdCopy project personaName (.str angle) o.copyResponse).outputTokens
   else 0) +
  (generateCreativeImage o.imageResponse).outputTokens

/-- Images produced by one remix variation (the single regenerated image,
when it succeeded). -/
def remixImageCount (o : RemixOracle) : ℚ :=
  if (generateCreativeImage o.imageResponse).data.isSome then 1 else 0

/-- The body of the remix loop for one variation (source lines 499–549 of
the app component), as the update applied to the stored node: a new visual
style only for `VISUAL`, new copy for `COPY` or when the source has none, a
regenerated image always, the same cost formula, or the `"Remix Failed"`
update when reading `adCopy?.primaryText.slice(0, 100)` throws.  `skelMeta`
is the skeleton node's `meta` (captured by the loop's closure). -/
def remixNodeUpdate (o : RemixOracle) (project : ProjectContext)
    (personaName angle currentStyle : String) (srcAdCopy : Option JsVal)
    (rtype : RemixType) (skelMeta : JsVal) (stored : NodeData) : NodeData :=
  let styleRes := generateVisualStyle project personaName angle o.styleResponse
  let visualStyle := if rtype == .VISUAL then styleRes.data else currentStyle
  let adCopy := remixAdCopyOf o project personaName angle srcAdCopy rtype
  let imgRes := generateCreativeImage o.imageResponse
  let accIn := remixAccIn o project personaName angle srcAdCopy rtype
  let accOut := remixAccOut o project personaName angle srcAdCopy rtype
  match optPrimaryText adCopy with
  | .ok primary =>
    { stored with
        isLoading := some false,
        imageUrl := imgRes.data,
        adCopy := adCopy,
        description := some (jsSlice100 primary ++ "..."),
        inputTokens := some accIn,
        outputTokens := some accOut,
        estimatedCost := some (nodeCost accIn accOut (remixImageCount o)),
        meta := some (skelMeta.setField "styleContext" (.str visualStyle)) }
  | .error _ =>
    { stored with isLoading := some false, description := some "Remix Failed" }

/-- `'remix_creative'`: finds the source node, marks it loading, creates the
three skeleton children (the `variations` array, written out) with one edge
from the source each, processes each variation in turn, then clears the
source's loading flag.  `ρ i` supplies the upstream outcomes of
variation `i`. -/
def remixCreative (s : Store) (nodeId : String) (ρ : Nat → RemixOracle)
    (project : ProjectContext) : Store :=
  match s.nodes.find? (fun n => n.id == nodeId) with
  | none => s
  | some src =>
    let s1 := s.updateNode nodeId (fun n => { n with isLoading := some true })
    let personaName := ((src.meta.getD .undefined).get "personaName").strOr "User"
    let angle := ((src.meta.getD .undefined).get "angle").strOr src.title
    let currentStyle := ((src.meta.getD .undefined).get "styleContext").strOr ""
    let v0 : RemixVariation :=
      { idSuffix := "v-copy", label := "Copy Remix", rtype := .COPY, vformat := src.format }
    let v1 : RemixVariation :=
      { idSuffix := "v-visual", label := "Visual Refresh", rtype := .VISUAL, vformat := src.format }
    let v2 : RemixVariation :=
      { idSuffix := "v-format", label := "Format Pivot", rtype := .FORMAT,
        vformat := some (pivotFormatFor src.format) }
    let k0 := remixSkeleton src personaName angle currentStyle 0 v0
    let k1 := remixSkeleton src personaName angle currentStyle 1 v1
    let k2 := remixSkeleton src personaName angle currentStyle 2 v2
    let s2 := ((((((s1.addNode k0).addEdge src.id k0.id).addNode k1).addEdge src.id
      k1.id).addNode k2).addEdge src.id k2.id)
    let s3 := s2.updateNode k0.id
      (remixNodeUpdate (ρ 0) project personaName angle currentStyle src.adCopy
        v0.rtype (k0.meta.getD (.obj [])))
    let s4 := s3.updateNode k1.id
      (remixNodeUpdate (ρ 1) project personaName angle currentStyle src.adCopy
        v1.rtype (k1.meta.getD (.obj [])))
    let s5 := s4.updateNode k2.id
      (remixNodeUpdate (ρ 2) project personaName angle currentStyle src.adCopy
        v2.rtype (k2.meta.getD (.obj [])))
    s5.updateNode nodeId (fun n => { n with isLoading := some false })

/-! ### Performance simulation (`handleSimulatePerformance`) -/

/-- The `Math.random()` draws consumed for one simulated node: spend draw,
quality draw, the two roas/cpa draws of the taken branch, and the ctr
draw. -/
structure SimDraws where
  spendDraw : ℚ
  qualityDraw : ℚ
  roasDraw : ℚ
  cpaDraw : ℚ
  ctrDraw : ℚ

/-- The eligibility test of `handleSimulatePerformance`: creative, not
loading, in the testing stage, not ghosted. -/
def simEligible (n : NodeData) : Bool :=
  n.type == .CREATIVE && !(n.isLoading == some true) &&
  n.stage == some .TESTING && !(n.isGhost == some true)

/-- The metrics assigned to an eligible node from its random draws. -/
def simMetrics (d : SimDraws) : Metrics :=
  let spend : ℚ := (Rat.floor (d.spendDraw * 1500) : ℚ) + 20
  let roas : ℚ :=
    if spend > 500 then
      if d.qualityDraw > 0.6 then 2.5 + d.roasDraw * 3 else 0.5 + d.roasDraw
    else d.roasDraw * 2
  let cpa : ℚ :=
    if spend > 500 then
      if d.qualityDraw > 0.6 then 10 + d.cpaDraw * 15 else 50 + d.cpaDraw * 50
    else 20 + d.cpaDraw * 30
  { spend := spend, cpa := cpa, roas := roas,
    impressions := (Rat.floor (spend * 60) : ℚ),
    ctr := 0.5 + d.ctrDraw * 2 }

/-- The update applied to an eligible node: fresh metrics plus the derived
winning/losing flags; nothing else. -/
def simulateNode (d : SimDraws) (n : NodeData) : NodeData :=
  let m := simMetrics d
  { n with
      metrics := some m,
      isWinning := some (decide (m.spend > 400) && decide (m.roas > 2.2)),
      isLosing := some (decide (m.spend > 300) && decide (m.roas < 1.5)) }

/-- `handleSimulatePerformance`: maps over the node list, assigning fresh
simulated metrics to eligible nodes and leaving every other node untouched.
Each position consumes its own `Math.random()` draws. -/
def handleSimulatePerformance (ρ : Nat → SimDraws) : List NodeData → List NodeData
  | [] => []
  | n :: rest =>
    (if simEligible n then simulateNode (ρ 0) n else n) ::
      handleSimulatePerformance (fun i => ρ (i + 1)) rest

/-! ## Concrete fixtures for counterexamples and witnesses -/

/-- The app's `INITIAL_PROJECT`. -/
def sampleProject : ProjectContext :=
  { productName := "Zenith Focus Gummies",
    productDescription := "Nootropic gummies for focus and memory without the caffeine crash.",
    targetAudience := "Students, Programmers, and Creatives." }

/-- A response whose text is present but unparseable (`JSON.parse` throws). -/
def malformedResponse : ApiResponse :=
  { text? := some { raw := "oops not json", parsed := none },
    promptTokenCount := some 11, candidatesTokenCount := some 7 }

/-- A response with no text at all. -/
def emptyResponse : ApiResponse := {}

/-- A response whose text parses to a three-element string array. -/
def threeSlideResponse : ApiResponse :=
  { text? := some ⟨"[\"A\",\"B\",\"C\"]", some (.arr [.str "A", .str "B", .str "C"])⟩,
    promptTokenCount := some 5, candidatesTokenCount := some 9 }

/-- A response whose text parses to a bare number (a non-array value, on
which `texts.map` throws). -/
def numberPayloadResponse : ApiResponse :=
  { text? := some ⟨"5", some (.num 5)⟩,
    promptTokenCount := some 3, candidatesTokenCount := some 4 }

/-- A compliance verdict that flags the copy as risky yet contains the
substring `COMPLIANT`. -/
def riskyVerdictResponse : ApiResponse :=
  { text? := some { raw := "NOT COMPLIANT: uses profanity", parsed := none } }

/-- A sample ad copy record. -/
def sampleCopy : AdCopy :=
  { primaryText := "Buy it now", headline := "Great gummies", cta := "Shop" }

/-- An operation that always throws a rate-limit error. -/
def alwaysRateLimited : Nat → Except JsError Unit :=
  fun _ => .error { status := some 429 }

/-- An operation that throws a bad-request error on its first call. -/
def alwaysBadRequest : Nat → Except JsError Unit :=
  fun _ => .error { status := some 400 }

/-- A creative node in the testing stage, as created by `executeGeneration`. -/
def creativeNodeFix : NodeData :=
  { id := "creative-1", type := .CREATIVE, parentId := some "angle-1",
    title := "Meme / Internet Culture", description := some "Initializing Generation...",
    format := some .MEME, isLoading := some true, stage := some .TESTING,
    meta := some (.obj [("personaName", .str "Budi"), ("angle", .str "Focus without crash"),
      ("styleContext", .str "")]),
    x := 550, y := 0 }

/-- A ready creative node (generation finished; carries copy and an image). -/
def readyCreativeFix : NodeData :=
  { id := "c2", type := .CREATIVE, parentId := some "angle-1",
    title := "Meme / Internet Culture", description := some "Check out this product....",
    format := some .MEME, isLoading := some false, stage := some .TESTING,
    imageUrl := some "data:image/png;base64,AAA",
    adCopy := some (.obj [("primaryText", .str "Check out this product."),
      ("headline", .str "Great gummies"), ("cta", .str "Shop Now")]),
    meta := some (.obj [("personaName", .str "Budi"), ("angle", .str "Focus without crash"),
      ("styleContext", .str "")]),
    inputTokens := some 100, outputTokens := some 200, estimatedCost := some (3/100),
    x := 550, y := 0 }

/-- A one-creative-node store. -/
def oneNodeStore : Store := { nodes := [readyCreativeFix], edges := [] }

/-- An upstream oracle in which every call fails with a rate-limit error:
all stages fall back, no tokens and no images are charged. -/
def allFailOracle : CreativeOracle :=
  { styleResponse := .error { status := some 429 },
    copyResponse := .error { status := some 429 },
    imageResponse := .error { status := some 429 },
    slideTextResponse := .error { status := some 429 },
    slideImageResponse := fun _ => .error { status := some 429 } }

/-- A successful copy payload response. -/
def goodCopyResponse : ApiResponse :=
  { text? := some ⟨"ok", some (.obj [("primaryText", .str "Great product story"),
      ("headline", .str "H"), ("cta", .str "C")])⟩,
    promptTokenCount := some 10, candidatesTokenCount := some 20 }

/-- An oracle in which the image stage throws a terminal (400) error while
the copy stage succeeds. -/
def imgFailOracle : CreativeOracle :=
  { styleResponse := .ok {},
    copyResponse := .ok goodCopyResponse,
    imageResponse := .error { status := some 400, message := some "Bad Request" },
    slideTextResponse := .ok {},
    slideImageResponse := fun _ => .ok {} }

/-- An oracle in which the copy stage returns a parseable payload with no
string `primaryText`, so the per-node body itself throws. -/
def badCopyOracle : CreativeOracle :=
  { styleResponse := .ok {},
    copyResponse := .ok { text? := some { raw := "5", parsed := some (.num 5) } },
    imageResponse := .ok {},
    slideTextResponse := .ok {},
    slideImageResponse := fun _ => .ok {} }

/-- A remix oracle in which every call fails with a rate-limit error. -/
def remixFailOracle : RemixOracle :=
  { styleResponse := .error { status := some 429 },
    copyResponse := .error { status := some 429 },
    imageResponse := .error { status := some 429 } }

/-- A fixed draw record for the performance simulation. -/
def sampleDraws : SimDraws :=
  { spendDraw := 1/2, qualityDraw := 7/10, roasDraw := 1/4, cpaDraw := 1/3, ctrDraw := 1/5 }

/-! ## Helper lemmas -/

/-- A non-empty prefix makes the concatenation a different string. -/
theorem append_ne_self_of_length_pos (p s : String) (hp : p.length ≠ 0) :
    p ++ s ≠ s := by
  intro h
  have hlen := congrArg String.length h
  rw [String.length_append] at hlen
  omega

/-- Concatenation with a fixed prefix is injective, so different suffixes
give different strings. -/
theorem append_ne_of_suffix_ne (p : String) {s t : String} (h : s ≠ t) :
    p ++ s ≠ p ++ t := by
  intro he
  apply h
  have hd := congrArg String.data he
  rw [String.data_append, String.data_append] at hd
  exact String.ext (List.append_cancel_left hd)

/-- A remix child id is longer than the source id, hence different. -/
theorem remix_id_ne_src (i x : String) : "remix-" ++ i ++ "-" ++ x ≠ i := by
  intro h
  have hlen := congrArg String.length h
  rw [String.length_append, String.length_append, String.length_append] at hlen
  have h6 : ("remix-" : String).length = 6 := rfl
  have h1 : ("-" : String).length = 1 := rfl
  omega

/-! ## Claim C4 — retry executor -/

/-- C4: an operation that throws a transient-classified error on every
attempt is invoked exactly 3 times by `runWithRetry` with the default
maximum, and the last error is propagated; a non-transient (e.g.
400-classified) first failure is propagated immediately after exactly 1
invocation. -/
theorem runWithRetry_attempt_counts {α : Type}
    (op op' : Nat → Except JsError α) (e : Nat → JsError) (e' : JsError)
    (herr : ∀ i, i < 3 → op i = .error (e i))
    (htrans : ∀ i, i < 3 → isTransient (e i) = true)
    (herr' : op' 0 = .error e')
    (hterm : isTransient e' = false) :
    runWithRetry op 3 = (.error (e 2), 3) ∧ runWithRetry op' 3 = (.error e', 1) := by
  constructor
  · show runRetryFrom op 3 0 = _
    rw [runRetryFrom, herr 0 (by omega)]
    rw [runRetryFrom, herr 1 (by omega)]
    rw [runRetryFrom, herr 2 (by omega)]
    simp [htrans 0 (by omega), htrans 1 (by omega), htrans 2 (by omega)]
  · show runRetryFrom op' 3 0 = _
    rw [runRetryFrom, herr']
    simp [hterm]

/-- Witness for C4 at concrete operations. -/
theorem runWithRetry_attempt_counts_witness :
    runWithRetry alwaysRateLimited 3 = (.error { status := some 429 }, 3) ∧
    runWithRetry alwaysBadRequest 3 = (.error { status := some 400 }, 1) :=
  runWithRetry_attempt_counts alwaysRateLimited alwaysBadRequest
    (fun _ => { status := some 429 }) { status := some 400 }
    (fun _ _ => rfl)
    (fun _ _ => show isTransient { status := some 429 } = true by decide)
    rfl (by decide)

/-! ## Claim C5 — format resolution table -/

/-- C5 counterexample: `BENEFIT_POINTERS` lies in none of the four buckets
named by the claim, yet its descriptor is a fixed high-end-product string,
not the active style hint followed by the photographic quality suffix. -/
theorem getVisualEnhancers_counterexample :
    uiScreenshotBucket.contains CreativeFormat.BENEFIT_POINTERS = false ∧
    loFiBucket.contains CreativeFormat.BENEFIT_POINTERS = false ∧
    memeBucket.contains CreativeFormat.BENEFIT_POINTERS = false ∧
    vectorBucket.contains CreativeFormat.BENEFIT_POINTERS = false ∧
    getVisualEnhancers "XYZ" CreativeFormat.BENEFIT_POINTERS =
      "style:high-end-product-photography, lighting:studio-softbox, quality:8k, overlay:clean-white-graphics" ∧
    getVisualEnhancers "XYZ" CreativeFormat.BENEFIT_POINTERS ≠ "XYZ" ++ highEndSuffix := by
  refine ⟨rfl, rfl, rfl, rfl, rfl, ?_⟩
  decide

/-- C5 (amended): the table is total and deterministic (it is a function);
`BENEFIT_POINTERS` forms a fifth fixed bucket whose descriptor ignores the
style hint, and every format outside the five buckets resolves to the active
style hint concatenated with the fixed high-end photographic quality
suffix. -/
theorem getVisualEnhancers_spec (style : String) (format : CreativeFormat)
    (h1 : uiScreenshotBucket.contains format = false)
    (h2 : loFiBucket.contains format = false)
    (h3 : memeBucket.contains format = false)
    (h4 : vectorBucket.contains format = false) :
    getVisualEnhancers style CreativeFormat.BENEFIT_POINTERS =
      "style:high-end-product-photography, lighting:studio-softbox, quality:8k, overlay:clean-white-graphics" ∧
    (format ≠ CreativeFormat.BENEFIT_POINTERS →
      getVisualEnhancers style format = style ++ highEndSuffix) := by
  constructor
  · rfl
  · intro hne
    cases format <;>
      first
        | rfl
        | exact absurd h1 (by decide)
        | exact absurd h2 (by decide)
        | exact absurd h3 (by decide)
        | exact absurd h4 (by decide)
        | exact absurd rfl hne

/-- Witness for C5 at a default-bucket format. -/
theorem getVisualEnhancers_spec_witness :
    getVisualEnhancers "moody neon" CreativeFormat.BILLBOARD =
      "moody neon" ++ highEndSuffix :=
  (getVisualEnhancers_spec "moody neon" CreativeFormat.BILLBOARD
    rfl rfl rfl rfl).2 (by decide)

/-! ## Claim C6 — compliance check -/

/-- C6 counterexample: a verdict that flags the copy as non-compliant
(`"NOT COMPLIANT: uses profanity"`) still contains the substring
`COMPLIANT`, so the check collapses it to the safe marker instead of
returning the warning. -/
theorem checkAdCompliance_counterexample :
    complianceVerdict riskyVerdictResponse = "NOT COMPLIANT: uses profanity" ∧
    checkAdCompliance sampleCopy (.ok riskyVerdictResponse) = "Safe" ∧
    "NOT COMPLIANT: uses profanity" ≠ "COMPLIANT" := by
  refine ⟨rfl, ?_, by decide⟩
  decide

/-- C6 (amended): the compliance check never inspects the copy itself; it
returns the safe marker `"Safe"` exactly when the model's trimmed verdict
contains the substring `COMPLIANT` (or is itself the literal `"Safe"`),
returns the verdict text verbatim otherwise, and returns `"Check Failed"`
when the upstream call fails — so a warning that mentions `COMPLIANT`
(e.g. `"NOT COMPLIANT: …"`) is also mapped to the safe marker. -/
theorem checkAdCompliance_spec (copy : AdCopy) (e : JsError) (r : ApiResponse) :
    checkAdCompliance copy (.error e) = "Check Failed" ∧
    (strIncludes (complianceVerdict r) "COMPLIANT" = true →
      checkAdCompliance copy (.ok r) = "Safe") ∧
    (strIncludes (complianceVerdict r) "COMPLIANT" = false →
      checkAdCompliance copy (.ok r) = complianceVerdict r) := by
  refine ⟨rfl, ?_, ?_⟩ <;> intro h <;> simp [checkAdCompliance, h]

/-- Witness for C6 at a concrete verdict. -/
theorem checkAdCompliance_spec_witness :
    checkAdCompliance sampleCopy (.error { status := some 400 }) = "Check Failed" ∧
    checkAdCompliance sampleCopy (.ok riskyVerdictResponse) = "Safe" := by
  have h := checkAdCompliance_spec sampleCopy { status := some 400 } riskyVerdictResponse
  exact ⟨h.1, h.2.1 (by decide)⟩

/-! ## Claim C3 — fallbacks on malformed structured output -/

/-- C3 counterexample: context extraction does not recover with a fallback —
a malformed payload makes `analyzeLandingPageContext` propagate a fresh
error; and a response with missing text makes `generatePersonas` return the
empty parsed array `[]`, not its non-empty fallback. -/
theorem stage_fallback_counterexample :
    analyzeLandingPageContext (.ok malformedResponse) = .error analysisFailedError ∧
    (generatePersonas sampleProject (.ok emptyResponse)).data = JsVal.arr [] ∧
    (generatePersonas sampleProject (.ok emptyResponse)).data ≠ personasFallback.data := by
  refine ⟨rfl, rfl, ?_⟩
  intro h
  simp [generatePersonas, parseTextOr, emptyResponse, personasFallback] at h

/-- C3 (amended): when the structured payload is malformed (`JSON.parse`
throws), persona, angle, concept and copy synthesis and the carousel
slide-text expansion all return their deterministic, non-empty fallback
payloads; context extraction instead catches the failure and propagates a
fresh descriptive error; and a missing response text is parsed as the empty
JSON default (`[]`/`{}`) and returned as-is rather than replaced by the
fallback. -/
theorem stage_fallback_spec (project : ProjectContext)
    (personaName motivation angle : String) (fmt : CreativeFormat)
    (concept : JsVal) (scene style tech : Option String)
    (r : ApiResponse) (jt : JsText)
    (hmal : r.text? = some jt) (hparse : jt.parsed = none) :
    generatePersonas project (.ok r) = personasFallback ∧
    generateAngles project personaName motivation (.ok r) = anglesFallback project ∧
    generateCreativeConcept project personaName angle fmt (.ok r) =
      conceptFallback project angle ∧
    generateAdCopy project personaName concept (.ok r) = adCopyFallback concept ∧
    (carouselSlidePlan (.ok r) project .CAROUSEL_EDUCATIONAL angle scene style tech).prompts =
      educationalFallbackPrompts ∧
    personasFallback.data ≠ .arr [] ∧
    educationalFallbackPrompts ≠ [] ∧
    analyzeLandingPageContext (.ok r) = .error analysisFailedError := by
  refine ⟨?_, ?_, ?_, ?_, ?_, ?_, by decide, ?_⟩ <;>
    simp [generatePersonas, generateAngles, generateCreativeConcept, generateAdCopy,
      carouselSlidePlan, analyzeLandingPageContext, parseTextOr, hmal, hparse,
      personasFallback]

/-- Witness for C3 at a concrete malformed response. -/
theorem stage_fallback_spec_witness :
    generatePersonas sampleProject (.ok malformedResponse) = personasFallback ∧
    generateAdCopy sampleProject "Budi" (.str "hook") (.ok malformedResponse) =
      adCopyFallback (.str "hook") ∧
    (carouselSlidePlan (.ok malformedResponse) sampleProject .CAROUSEL_EDUCATIONAL
        "hook" none none none).prompts = educationalFallbackPrompts := by
  have h := stage_fallback_spec sampleProject "Budi" "m" "hook" .CAROUSEL_EDUCATIONAL
    (.str "hook") none none none malformedResponse
    { raw := "oops not json", parsed := none } rfl rfl
  exact ⟨h.1, h.2.2.2.1, h.2.2.2.2.1⟩

/-! ## Claim C7 — educational carousel expansion -/

/-- C7 counterexample: when the slide-text stage succeeds but returns a
three-element array, the educational carousel dispatches 3 slide image
requests, not 4. -/
theorem carousel_educational_counterexample :
    (carouselSlidePlan (.ok threeSlideResponse) sampleProject .CAROUSEL_EDUCATIONAL
        "hook" none none none).prompts.length = 3 ∧ (3 : Nat) ≠ 4 := by
  exact ⟨rfl, by decide⟩

/-- C7 (amended): for every project and concept, the educational carousel
dispatches one slide image request per slide text returned by the text
stage — exactly 4 whenever the model honours the 4-string contract — and
when the text stage fails (upstream error, unparseable payload, or a parsed
non-array value) it dispatches exactly the 4 generic labeled fallback
slides. -/
theorem carousel_educational_spec (textResponse : Except JsError ApiResponse)
    (project : ProjectContext) (angle : String) (scene style tech : Option String) :
    educationalFallbackPrompts.length = 4 ∧
    (∀ e, textResponse = .error e →
      (carouselSlidePlan textResponse project .CAROUSEL_EDUCATIONAL angle scene style
        tech).prompts = educationalFallbackPrompts) ∧
    (∀ r jt, textResponse = .ok r → r.text? = some jt → jt.parsed = none →
      (carouselSlidePlan textResponse project .CAROUSEL_EDUCATIONAL angle scene style
        tech).prompts = educationalFallbackPrompts) ∧
    (∀ r j, textResponse = .ok r → parseTextOr r.text? (.arr []) = .ok j →
      (∀ xs, j ≠ JsVal.arr xs) →
      (carouselSlidePlan textResponse project .CAROUSEL_EDUCATIONAL angle scene style
        tech).prompts = educationalFallbackPrompts) ∧
    (∀ r texts, textResponse = .ok r →
      parseTextOr r.text? (.arr []) = .ok (.arr texts) →
      (carouselSlidePlan textResponse project .CAROUSEL_EDUCATIONAL angle scene style
        tech).prompts.length = texts.length) := by
  refine ⟨rfl, ?_, ?_, ?_, ?_⟩
  · rintro e rfl
    rfl
  · rintro r jt rfl hmal hparse
    simp [carouselSlidePlan, parseTextOr, hmal, hparse]
  · rintro r j rfl hok hna
    cases j <;> first
      | exact absurd rfl (hna _)
      | simp [carouselSlidePlan, hok]
  · rintro r texts rfl hok
    simp [carouselSlidePlan, hok]

/-- Witness for C7: upstream-error path, parsed-non-array path, and a
parsed array payload. -/
theorem carousel_educational_spec_witness :
    (carouselSlidePlan (.error { status := some 400 }) sampleProject
        .CAROUSEL_EDUCATIONAL "hook" none none none).prompts =
      educationalFallbackPrompts ∧
    (carouselSlidePlan (.ok numberPayloadResponse) sampleProject
        .CAROUSEL_EDUCATIONAL "hook" none none none).prompts =
      educationalFallbackPrompts ∧
    (carouselSlidePlan (.ok threeSlideResponse) sampleProject
        .CAROUSEL_EDUCATIONAL "hook" none none none).prompts.length = 3 := by
  refine ⟨(carousel_educational_spec (.error { status := some 400 }) sampleProject
    "hook" none none none).2.1 _ rfl, ?_, ?_⟩
  · exact (carousel_educational_spec (.ok numberPayloadResponse) sampleProject
      "hook" none none none).2.2.2.1 numberPayloadResponse (.num 5) rfl rfl
      (fun xs h => JsVal.noConfusion h)
  · have h := (carousel_educational_spec (.ok threeSlideResponse) sampleProject
      "hook" none none none).2.2.2.2 threeSlideResponse
      [.str "A", .str "B", .str "C"] rfl rfl
    simpa using h

/-! ## Claim C1 — promote -/

/-- C1 counterexample: the vault id is the deterministic `vault-<id>`, so a
repeated promotion of the same node adds a node whose id already belongs to
the store (the vault copy of the first promotion). -/
theorem promote_repeat_counterexample :
    ((promoteCreative (promoteCreative oneNodeStore "c2" 0) "c2" 0).nodes.map
        NodeData.id) = ["c2", "vault-c2", "vault-c2"] ∧
    "vault-c2" ∈ ((promoteCreative oneNodeStore "c2" 0).nodes.map NodeData.id) := by
  exact ⟨rfl, by decide⟩

/-- C1 (amended): promotion leaves the original in place with only its ghost
flag set and its stage (re)set to testing — all generated content untouched —
and appends exactly one vault node that value-copies the original's generated
content, carries stage scaling, the fixed freshly-assigned simulated metrics,
and the id `vault-<id>`, which differs from the original's id and is fresh
whenever no node with that vault id exists yet; a repeated promotion of the
same node however reuses the same vault id. -/
theorem promote_spec (s : Store) (nodeId : String) (X : NodeData) (r : ℚ)
    (hX : s.nodes.find? (fun n => n.id == nodeId) = some X) :
    (promoteCreative s nodeId r).nodes =
      s.nodes.map (fun n => if n.id == nodeId then
        { n with isGhost := some true, stage := some CampaignStage.TESTING } else n)
      ++ [vaultNodeOf X r] ∧
    (promoteCreative s nodeId r).edges = s.edges ∧
    (vaultNodeOf X r).id = "vault-" ++ X.id ∧
    (vaultNodeOf X r).stage = some CampaignStage.SCALING ∧
    (vaultNodeOf X r).imageUrl = X.imageUrl ∧
    (vaultNodeOf X r).carouselImages = X.carouselImages ∧
    (vaultNodeOf X r).adCopy = X.adCopy ∧
    (vaultNodeOf X r).inputTokens = X.inputTokens ∧
    (vaultNodeOf X r).outputTokens = X.outputTokens ∧
    (vaultNodeOf X r).estimatedCost = X.estimatedCost ∧
    (vaultNodeOf X r).format = X.format ∧
    (vaultNodeOf X r).metrics =
      some { spend := 850, cpa := 12.5, roas := 3.2, impressions := 45000, ctr := 1.8 } ∧
    (vaultNodeOf X r).isWinning = some true ∧
    "vault-" ++ X.id ≠ X.id ∧
    (("vault-" ++ X.id) ∉ s.nodes.map NodeData.id →
      ∀ n ∈ s.nodes, (vaultNodeOf X r).id ≠ n.id) := by
  refine ⟨?_, ?_, rfl, rfl, rfl, rfl, rfl, rfl, rfl, rfl, rfl, rfl, rfl, ?_, ?_⟩
  · simp [promoteCreative, hX, Store.updateNode, Store.addNode]
  · simp [promoteCreative, hX, Store.updateNode, Store.addNode]
  · exact append_ne_self_of_length_pos "vault-" X.id (by decide)
  · intro hfresh n hn he
    exact hfresh (List.mem_map.mpr ⟨n, hn, he.symm⟩)

/-- Witness for C1 at the one-node store. -/
theorem promote_spec_witness :
    (promoteCreative oneNodeStore "c2" (1/2)).edges = oneNodeStore.edges ∧
    (vaultNodeOf readyCreativeFix (1/2)).id = "vault-" ++ readyCreativeFix.id ∧
    (vaultNodeOf readyCreativeFix (1/2)).adCopy = readyCreativeFix.adCopy ∧
    (vaultNodeOf readyCreativeFix (1/2)).stage = some CampaignStage.SCALING := by
  have h := promote_spec oneNodeStore "c2" readyCreativeFix (1/2) rfl
  exact ⟨h.2.1, h.2.2.1, h.2.2.2.2.2.2.1, h.2.2.2.1⟩

/-! ## Claim C2 — remix -/

/-- The remix-processing update never changes a node's identity, kind,
parent or format. -/
theorem remixNodeUpdate_fields (o : RemixOracle) (project : ProjectContext)
    (personaName angle currentStyle : String) (srcAdCopy : Option JsVal)
    (rtype : RemixType) (skelMeta : JsVal) (stored : NodeData) :
    (remixNodeUpdate o project personaName angle currentStyle srcAdCopy rtype
        skelMeta stored).id = stored.id ∧
    (remixNodeUpdate o project personaName angle currentStyle srcAdCopy rtype
        skelMeta stored).format = stored.format ∧
    (remixNodeUpdate o project personaName angle currentStyle srcAdCopy rtype
        skelMeta stored).parentId = stored.parentId ∧
    (remixNodeUpdate o project personaName angle currentStyle srcAdCopy rtype
        skelMeta stored).type = stored.type := by
  unfold remixNodeUpdate
  cases hm : optPrimaryText (remixAdCopyOf o project personaName angle srcAdCopy rtype) <;>
    simp [hm]

/-- The pivot format always differs from the current format. -/
theorem pivotFormatFor_ne (f : CreativeFormat) : pivotFormatFor (some f) ≠ f := by
  cases f <;> decide

/-- C2: remixing a ready creative node (its format is set) appends exactly 3
new creative child nodes, each the target of exactly one new edge from the
source; the first two keep the source's format and the third carries the
pivot format, drawn from the fixed pivot options and always different from
the source's format. -/
theorem remix_spec (s : Store) (nodeId : String) (src : NodeData)
    (f : CreativeFormat) (ρ : Nat → RemixOracle) (project : ProjectContext)
    (hsrc : s.nodes.find? (fun n => n.id == nodeId) = some src)
    (hf : src.format = some f) :
    (remixCreative s nodeId ρ project).nodes.length = s.nodes.length + 3 ∧
    ((remixCreative s nodeId ρ project).nodes.drop s.nodes.length).map NodeData.id =
      ["remix-" ++ src.id ++ "-" ++ "v-copy",
       "remix-" ++ src.id ++ "-" ++ "v-visual",
       "remix-" ++ src.id ++ "-" ++ "v-format"] ∧
    ((remixCreative s nodeId ρ project).nodes.drop s.nodes.length).map NodeData.type =
      [NodeType.CREATIVE, NodeType.CREATIVE, NodeType.CREATIVE] ∧
    ((remixCreative s nodeId ρ project).nodes.drop s.nodes.length).map NodeData.parentId =
      [some src.id, some src.id, some src.id] ∧
    ((remixCreative s nodeId ρ project).nodes.drop s.nodes.length).map NodeData.format =
      [some f, some f, some (pivotFormatFor (some f))] ∧
    (remixCreative s nodeId ρ project).edges = s.edges ++
      [{ id := src.id ++ "-" ++ ("remix-" ++ src.id ++ "-" ++ "v-copy"),
         source := src.id, target := "remix-" ++ src.id ++ "-" ++ "v-copy" },
       { id := src.id ++ "-" ++ ("remix-" ++ src.id ++ "-" ++ "v-visual"),
         source := src.id, target := "remix-" ++ src.id ++ "-" ++ "v-visual" },
       { id := src.id ++ "-" ++ ("remix-" ++ src.id ++ "-" ++ "v-format"),
         source := src.id, target := "remix-" ++ src.id ++ "-" ++ "v-format" }] ∧
    pivotFormatFor (some f) ∈ pivotOptions ∧
    pivotFormatFor (some f) ≠ f := by
  have hid : src.id = nodeId := by
    have hp := List.find?_some hsrc
    exact eq_of_beq hp
  have hne01 : ("remix-" ++ src.id ++ "-" ++ "v-copy" : String) ≠
      "remix-" ++ src.id ++ "-" ++ "v-visual" :=
    append_ne_of_suffix_ne ("remix-" ++ src.id ++ "-") (by decide)
  have hne02 : ("remix-" ++ src.id ++ "-" ++ "v-copy" : String) ≠
      "remix-" ++ src.id ++ "-" ++ "v-format" :=
    append_ne_of_suffix_ne ("remix-" ++ src.id ++ "-") (by decide)
  have hne12 : ("remix-" ++ src.id ++ "-" ++ "v-visual" : String) ≠
      "remix-" ++ src.id ++ "-" ++ "v-format" :=
    append_ne_of_suffix_ne ("remix-" ++ src.id ++ "-") (by decide)
  have hns0 : ("remix-" ++ src.id ++ "-" ++ "v-copy" : String) ≠ nodeId :=
    hid ▸ remix_id_ne_src src.id "v-copy"
  have hns1 : ("remix-" ++ src.id ++ "-" ++ "v-visual" : String) ≠ nodeId :=
    hid ▸ remix_id_ne_src src.id "v-visual"
  have hns2 : ("remix-" ++ src.id ++ "-" ++ "v-format" : String) ≠ nodeId :=
    hid ▸ remix_id_ne_src src.id "v-format"
  have hmem : pivotFormatFor (some f) ∈ pivotOptions := by
    cases f <;> decide
  unfold remixCreative
  rw [hsrc]
  simp only [Store.updateNode, Store.addNode, Store.addEdge, remixSkeleton]
  simp [List.map_append, List.drop_left', remixNodeUpdate_fields, hf,
    beq_iff_eq, hne01, hne02, hne12, hns0, hns1, hns2,
    Ne.symm hne01, Ne.symm hne02, Ne.symm hne12,
    Ne.symm hns0, Ne.symm hns1, Ne.symm hns2,
    pivotFormatFor_ne f, hmem]

/-- Witness for C2 at the one-node store. -/
theorem remix_spec_witness :
    (remixCreative oneNodeStore "c2" (fun _ => remixFailOracle) sampleProject).nodes.length =
      oneNodeStore.nodes.length + 3 ∧
    ((remixCreative oneNodeStore "c2" (fun _ => remixFailOracle) sampleProject).nodes.drop
        oneNodeStore.nodes.length).map NodeData.format =
      [some CreativeFormat.MEME, some CreativeFormat.MEME,
       some (pivotFormatFor (some CreativeFormat.MEME))] ∧
    pivotFormatFor (some CreativeFormat.MEME) ≠ CreativeFormat.MEME := by
  have h := remix_spec oneNodeStore "c2" readyCreativeFix .MEME
    (fun _ => remixFailOracle) sampleProject rfl rfl
  exact ⟨h.1, h.2.2.2.2.1, h.2.2.2.2.2.2.2⟩

/-! ## Claim C8 — cost accounting -/

/-- C8: whenever a creative node's generation (or a remix variation's
processing) completes, the node records exactly the token counts accumulated
across its stages, and its estimated cost is computed once at the end as
`inputTokens/1e6 * 0.30 + outputTokens/1e6 * 2.50 + imageCount * 0.039`
over those accumulated counts — for every combination of counts, including
zero. -/
theorem node_cost_spec (o : CreativeOracle) (ro : RemixOracle)
    (project : ProjectContext) (personaName angle currentStyle : String)
    (fmt : CreativeFormat) (srcAdCopy : Option JsVal) (rtype : RemixType)
    (skelMeta : JsVal) (node stored : NodeData) (p q : String)
    (h1 : (generateAdCopy project personaName (.str angle) o.copyResponse).data.strField
        "primaryText" = .ok p)
    (h2 : optPrimaryText (remixAdCopyOf ro project personaName angle srcAdCopy rtype) = .ok q) :
    (runCreativePipeline o project personaName angle fmt node).inputTokens =
      some (creativeAccIn o project personaName angle fmt) ∧
    (runCreativePipeline o project personaName angle fmt node).outputTokens =
      some (creativeAccOut o project personaName angle fmt) ∧
    (runCreativePipeline o project personaName angle fmt node).estimatedCost =
      some (nodeCost (creativeAccIn o project personaName angle fmt)
        (creativeAccOut o project personaName angle fmt)
        (creativeImageCount o project personaName angle fmt)) ∧
    (remixNodeUpdate ro project personaName angle currentStyle srcAdCopy rtype
        skelMeta stored).inputTokens =
      some (remixAccIn ro project personaName angle srcAdCopy rtype) ∧
    (remixNodeUpdate ro project personaName angle currentStyle srcAdCopy rtype
        skelMeta stored).outputTokens =
      some (remixAccOut ro project personaName angle srcAdCopy rtype) ∧
    (remixNodeUpdate ro project personaName angle currentStyle srcAdCopy rtype
        skelMeta stored).estimatedCost =
      some (nodeCost (remixAccIn ro project personaName angle srcAdCopy rtype)
        (remixAccOut ro project personaName angle srcAdCopy rtype)
        (remixImageCount ro)) := by
  unfold runCreativePipeline remixNodeUpdate
  simp [h1, h2]

/-- Witness for C8 at an all-failing oracle (all counts zero). -/
theorem node_cost_spec_witness :
    (runCreativePipeline allFailOracle sampleProject "Budi" "hook" .MEME
        creativeNodeFix).estimatedCost =
      some (nodeCost (creativeAccIn allFailOracle sampleProject "Budi" "hook" .MEME)
        (creativeAccOut allFailOracle sampleProject "Budi" "hook" .MEME)
        (creativeImageCount allFailOracle sampleProject "Budi" "hook" .MEME)) ∧
    (remixNodeUpdate remixFailOracle sampleProject "Budi" "hook" "" none .COPY
        (.obj []) creativeNodeFix).estimatedCost =
      some (nodeCost (remixAccIn remixFailOracle sampleProject "Budi" "hook" none .COPY)
        (remixAccOut remixFailOracle sampleProject "Budi" "hook" none .COPY)
        (remixImageCount remixFailOracle)) := by
  have h := node_cost_spec allFailOracle remixFailOracle sampleProject "Budi" "hook" ""
    .MEME none .COPY (.obj []) creativeNodeFix creativeNodeFix
    "Check out this product." "Check out this product." rfl rfl
  exact ⟨h.2.2.1, h.2.2.2.2.2⟩

/-! ## Claim C9 — failure handling in creative generation -/

/-- C9 counterexample: a terminal (400-classified, non-transient) upstream
error in the image stage does not propagate to the orchestrator — the stage
swallows it into a `null` image, the node completes with the generated copy
as its description (not a failure description), and is not marked failed. -/
theorem generation_failure_counterexample :
    isTransient { status := some 400, message := some "Bad Request" } = false ∧
    (runCreativePipeline imgFailOracle sampleProject "Budi" "hook" .MEME
        creativeNodeFix).isLoading = some false ∧
    (runCreativePipeline imgFailOracle sampleProject "Budi" "hook" .MEME
        creativeNodeFix).description = some "Great product story..." ∧
    (runCreativePipeline imgFailOracle sampleProject "Budi" "hook" .MEME
        creativeNodeFix).description ≠ some "Generation Failed" ∧
    (runCreativePipeline imgFailOracle sampleProject "Budi" "hook" .MEME
        creativeNodeFix).imageUrl = none := by
  exact ⟨by decide, rfl, rfl, by decide, rfl⟩

/-- C9 (amended): terminal upstream errors are absorbed inside the stage
functions themselves (fallback copy, `null` image), so they never reach the
orchestrator; the orchestrator's failure handler fires only when the
per-node body itself throws (a parsed copy payload without a string
`primaryText`), in which case the node keeps its prior content and gets the
short failure description — and on every path, success or failure, the node
ends with its loading flag false. -/
theorem generation_failure_spec (o : CreativeOracle) (project : ProjectContext)
    (personaName angle : String) (fmt : CreativeFormat) (node : NodeData) :
    (runCreativePipeline o project personaName angle fmt node).isLoading = some false ∧
    ((generateAdCopy project personaName (.str angle) o.copyResponse).data.strField
        "primaryText" = .error () →
      runCreativePipeline o project personaName angle fmt node =
        { node with isLoading := some false, description := some "Generation Failed" }) := by
  constructor
  · unfold runCreativePipeline
    cases hm : (generateAdCopy project personaName (.str angle) o.copyResponse).data.strField
        "primaryText" <;> simp [hm]
  · intro h
    unfold runCreativePipeline
    simp [h]

/-- Witness for C9: the throwing-body path at a concrete oracle. -/
theorem generation_failure_spec_witness :
    (runCreativePipeline badCopyOracle sampleProject "Budi" "hook" .MEME
        creativeNodeFix).isLoading = some false ∧
    runCreativePipeline badCopyOracle sampleProject "Budi" "hook" .MEME creativeNodeFix =
      { creativeNodeFix with isLoading := some false, description := some "Generation Failed" } := by
  have h := generation_failure_spec badCopyOracle sampleProject "Budi" "hook" .MEME
    creativeNodeFix
  exact ⟨h.1, h.2 rfl⟩

/-! ## Claim C10 — performance simulation frame -/

/-- C10: the simulation step leaves every node that is not an eligible
creative (creative, not loading, testing-stage, not ghosted) completely
unchanged, and on eligible nodes it assigns fresh metrics and the derived
winning/losing flags while every other field is unchanged. -/
theorem simulate_frame_spec (ρ : Nat → SimDraws) (nodes : List NodeData) :
    (handleSimulatePerformance ρ nodes).length = nodes.length ∧
    ∀ i n, nodes[i]? = some n →
      ∃ m, (handleSimulatePerformance ρ nodes)[i]? = some m ∧
        (simEligible n = false → m = n) ∧
        (simEligible n = true →
          m.metrics = some (simMetrics (ρ i)) ∧
          m.isWinning.isSome ∧ m.isLosing.isSome ∧
          m.id = n.id ∧ m.type = n.type ∧ m.parentId = n.parentId ∧
          m.title = n.title ∧ m.description = n.description ∧ m.meta = n.meta ∧
          m.imageUrl = n.imageUrl ∧ m.carouselImages = n.carouselImages ∧
          m.format = n.format ∧ m.adCopy = n.adCopy ∧
          m.audioScript = n.audioScript ∧ m.audioBase64 = n.audioBase64 ∧
          m.isLoading = n.isLoading ∧ m.stage = n.stage ∧ m.isGhost = n.isGhost ∧
          m.postId = n.postId ∧ m.aiInsight = n.aiInsight ∧
          m.inputTokens = n.inputTokens ∧ m.outputTokens = n.outputTokens ∧
          m.estimatedCost = n.estimatedCost ∧ m.x = n.x ∧ m.y = n.y) := by
  induction nodes generalizing ρ with
  | nil =>
    refine ⟨rfl, ?_⟩
    intro i n h
    simp at h
  | cons n0 rest ih =>
    refine ⟨?_, ?_⟩
    · simpa [handleSimulatePerformance] using (ih (fun i => ρ (i + 1))).1
    · intro i n hi
      cases i with
      | zero =>
        rw [List.getElem?_cons_zero] at hi
        injection hi with hEq
        subst hEq
        refine ⟨if simEligible n0 then simulateNode (ρ 0) n0 else n0,
          by rw [handleSimulatePerformance, List.getElem?_cons_zero], ?_, ?_⟩
        · intro hne; simp [hne]
        · intro hel; simp [hel, simulateNode]
      | succ j =>
        rw [List.getElem?_cons_succ] at hi
        obtain ⟨m, hm, hne, hel⟩ := (ih (fun i => ρ (i + 1))).2 j n hi
        exact ⟨m, by simpa [handleSimulatePerformance] using hm, hne, hel⟩

/-- Witness for C10: an eligible creative node receives metrics, keeping its
identity. -/
theorem simulate_frame_spec_witness :
    (handleSimulatePerformance (fun _ => sampleDraws) [readyCreativeFix]).length = 1 ∧
    (∃ m, (handleSimulatePerformance (fun _ => sampleDraws) [readyCreativeFix])[0]? = some m ∧
      m.metrics = some (simMetrics sampleDraws) ∧ m.id = readyCreativeFix.id) := by
  have h := simulate_frame_spec (fun _ => sampleDraws) [readyCreativeFix]
  obtain ⟨m, hm, _, hel⟩ := h.2 0 readyCreativeFix rfl
  have he : simEligible readyCreativeFix = true := by decide
  obtain ⟨hmet, _, _, hid, _⟩ := hel he
  exact ⟨h.1, m, hm, hmet, hid⟩

end Andromeda
